import Mathlib

/-!
Verification of the certificate-lifecycle core of the
`cybersecurity-framework` repository.

Shallow embedding of:
* `src/infrastructure/mcp-server/src/database.py` — the certificate store
  (`store_certificate`, `update_certificate_status`, the operations log);
* `src/infrastructure/mcp-server/src/mcp_protocol.py` — the tool-dispatch
  engine (`MCPTool.to_dict`, `MCPResult.to_dict`, `MCPServer.call_tool`);
* `src/vault-pki/automation/monitoring/cert-expiry-monitor.py` — the expiry
  monitor (`CertificateMonitor.generate_report`);
* `src/infrastructure/mcp-server/src/cache.py` — the cache layer
  (`RedisCache.get`).

Modelling conventions:
* SQL `NOW()` and `datetime.utcnow()` are an explicit `now : Nat` argument.
* Python `Optional` values are `Option`; Python truthiness of an optional
  string (`if certificate_id:`) is `pyTruthy` (falsy on `None` and `""`).
* A Python dict returned to the caller is a record in which an `Option`
  field is `none` exactly when the corresponding key is absent from the
  dict (the code omits keys rather than storing null values).
* A raised exception that propagates to the caller is `Except.error`.
-/

namespace PKI

/-- Opaque JSON-like value domain for tool parameters, handler results and
cached values.  The claims never inspect the inner structure of a value, so
scalar constructors suffice. -/
inductive JVal where
  | s (v : String)
  | n (v : Int)
  | b (v : Bool)
  deriving DecidableEq, Repr

/-- Python truthiness of an optional string: `None` and `""` are falsy. -/
def pyTruthy : Option String → Bool
  | none => false
  | some s => !s.isEmpty

/-! ## Certificate store — `src/infrastructure/mcp-server/src/database.py`

One row of the `certificates` table.  Columns not touched by any claim
(`organization`, `organizational_unit`, pem material, `ca_chain`,
`alt_names`, `validity_period`, `issued_at`, `expires_at`, `created_at`)
are omitted from the record. -/
structure Certificate where
  certificate_id : Option String
  serial_number : Option String
  common_name : String
  ca_provider : String
  status : Option String
  revoked_at : Option Nat
  revocation_reason : Option String
  updated_at : Nat
  deriving DecidableEq, Repr

/-- The `certificate_data` dict accepted by `store_certificate`.  `status`
is `none` when the key is absent, in which case the code inserts the
default `"issued"` (`certificate_data.get("status", "issued")`). -/
structure CertificateData where
  certificate_id : Option String
  serial_number : Option String
  common_name : String
  status : Option String
  deriving DecidableEq, Repr

/-- Payload of the `operation_data` JSONB column, by operation kind:
`_log_operation` receives `{"status": status, "reason": revocation_reason}`
for a status update and the whole `certificate_data` dict for an issue. -/
inductive OpData where
  | status_update (status : Option String) (reason : Option String)
  | issue (data : CertificateData)
  deriving DecidableEq, Repr

/-- One row of the append-only `certificate_operations` table. -/
structure Operation where
  certificate_id : Option String
  operation_type : String
  operation_data : OpData
  performed_at : Nat
  performed_by : String
  deriving DecidableEq, Repr

/-- The relational state owned by `Database`: the `certificates` table and
the `certificate_operations` log, in insertion order. -/
structure Store where
  certificates : List Certificate
  operations : List Operation
  deriving DecidableEq, Repr

/-- Lookup-key selection of `update_certificate_status` (database.py lines
226–233): `if certificate_id: ... elif serial_number: ... else: raise`.
Returns the row predicate of the SQL `WHERE` clause, or `none` when the
`ValueError` branch is taken. -/
def lookupPred (certificate_id serial_number : Option String) :
    Option (Certificate → Bool) :=
  if pyTruthy certificate_id then
    some (fun c => c.certificate_id == certificate_id)
  else if pyTruthy serial_number then
    some (fun c => c.serial_number == serial_number)
  else
    none

/-- Effect of the dynamically-built `UPDATE certificates SET ...` statement
on one row (database.py lines 235–249).  `SET status = $2, updated_at =
NOW()` always; `revoked_at = NOW()` is added exactly when the requested
status is `"revoked"`, and `revocation_reason` is additionally set when a
truthy reason was supplied. -/
def applyStatusUpdate (p : Certificate → Bool) (status reason : Option String)
    (now : Nat) (c : Certificate) : Certificate :=
  if p c then
    if status = some "revoked" then
      if pyTruthy reason then
        { c with status := status, updated_at := now,
                 revoked_at := some now, revocation_reason := reason }
      else
        { c with status := status, updated_at := now, revoked_at := some now }
    else
      { c with status := status, updated_at := now }
  else c

/-- `Database.update_certificate_status` (database.py lines 205–275).
The `UPDATE ... RETURNING certificate_id` statement updates every matching
row; `fetchrow` yields the first updated row or `None`.  When a row was
returned, `_log_operation` appends one `status_update` row and the call
returns `True`; when no row matched it returns `False` without logging;
when neither lookup key is truthy the `ValueError` propagates. -/
def update_certificate_status (s : Store)
    (certificate_id serial_number status revocation_reason : Option String)
    (now : Nat) : Except String (Bool × Store) :=
  match lookupPred certificate_id serial_number with
  | none => .error "Either certificate_id or serial_number must be provided"
  | some p =>
    match s.certificates.find? p with
    | none =>
      .ok (false,
        { s with certificates :=
            s.certificates.map (applyStatusUpdate p status revocation_reason now) })
    | some c =>
      .ok (true,
        { certificates :=
            s.certificates.map (applyStatusUpdate p status revocation_reason now),
          operations := s.operations ++
            [{ certificate_id := c.certificate_id,
               operation_type := "status_update",
               operation_data := .status_update status revocation_reason,
               performed_at := now,
               performed_by := "system" }] })

/-- `Database.store_certificate` (database.py lines 135–203): inserts one
row with `status := certificate_data.get("status", "issued")` and columns
`revoked_at`/`revocation_reason` absent from the INSERT list (hence NULL),
then logs one `issue` operation.  The UNIQUE constraint on
`certificate_id` makes the insert raise on a duplicate non-NULL id. -/
def store_certificate (s : Store) (provider : String) (data : CertificateData)
    (now : Nat) : Except String (Nat × Store) :=
  if _h : data.certificate_id ≠ none ∧
      s.certificates.any (fun c => c.certificate_id == data.certificate_id) then
    .error "duplicate key value violates unique constraint"
  else
    .ok (s.certificates.length + 1,
      { certificates := s.certificates ++
          [{ certificate_id := data.certificate_id,
             serial_number := data.serial_number,
             common_name := data.common_name,
             ca_provider := provider,
             status := some (data.status.getD "issued"),
             revoked_at := none,
             revocation_reason := none,
             updated_at := now }],
        operations := s.operations ++
          [{ certificate_id := data.certificate_id,
             operation_type := "issue",
             operation_data := .issue data,
             performed_at := now,
             performed_by := "system" }] })

/-- Modelled from the spec: the legal-successor relation of §4.2,
`pending → issued → active → \x7brevoked, expired\x7d`, with
`active → suspended → active` also permitted and `revoked`/`expired`
terminal.  This definition follows the spec's words and exists only to be
compared against the behaviour of `update_certificate_status`; nothing in
the source implements it. -/
def specLegalSuccessor : String → String → Bool
  | "pending", "issued" => true
  | "issued", "active" => true
  | "active", "revoked" => true
  | "active", "expired" => true
  | "active", "suspended" => true
  | "suspended", "active" => true
  | _, _ => false

/-! ### Concrete store fixtures used by counterexamples and witnesses -/

/-- A certificate already issued and active-free: status `"issued"`. -/
def certIssued : Certificate :=
  { certificate_id := some "c1", serial_number := some "sn1",
    common_name := "svc.internal", ca_provider := "internal-pki",
    status := some "issued", revoked_at := none,
    revocation_reason := none, updated_at := 1 }

/-- Store holding only `certIssued`, with an empty operations log. -/
def storeIssued : Store := { certificates := [certIssued], operations := [] }

/-- A certificate already revoked at time 3. -/
def certRevoked : Certificate :=
  { certificate_id := some "c1", serial_number := some "sn1",
    common_name := "svc.internal", ca_provider := "internal-pki",
    status := some "revoked", revoked_at := some 3,
    revocation_reason := some "key-compromise", updated_at := 3 }

/-- Store holding only `certRevoked`. -/
def storeRevoked : Store := { certificates := [certRevoked], operations := [] }

/-- `certIssued` after a first revocation at time 10. -/
def certRev10 : Certificate :=
  { certIssued with
    status := some "revoked"
    updated_at := 10
    revoked_at := some 10
    revocation_reason := some "key-compromise" }

/-- `certRev10` after a second revocation at time 20: `revoked_at` has been
overwritten by the second `NOW()`. -/
def certRev20 : Certificate :=
  { certIssued with
    status := some "revoked"
    updated_at := 20
    revoked_at := some 20
    revocation_reason := some "key-compromise" }

/-- `certRev10` after a (spec-illegal) update back to `"issued"` at time
20: the status left `revoked`, but `revoked_at` was never cleared. -/
def certBack : Certificate :=
  { certIssued with
    status := some "issued"
    updated_at := 20
    revoked_at := some 10
    revocation_reason := some "key-compromise" }

/-- The operations-log row appended by a status update. -/
def opRow (status reason : Option String) (now : Nat) : Operation :=
  { certificate_id := some "c1"
    operation_type := "status_update"
    operation_data := .status_update status reason
    performed_at := now
    performed_by := "system" }

/-- `storeIssued` after `update_certificate_status(certificate_id="c1",
status="revoked", revocation_reason="key-compromise")` at time 10. -/
def storeRev10 : Store :=
  { certificates := [certRev10]
    operations := [opRow (some "revoked") (some "key-compromise") 10] }

/-- `storeRev10` after a second identical revocation at time 20. -/
def storeRev20 : Store :=
  { certificates := [certRev20]
    operations := storeRev10.operations ++
      [opRow (some "revoked") (some "key-compromise") 20] }

/-- `storeRev10` after a (spec-illegal) update back to `"issued"` at 20. -/
def storeRevBack : Store :=
  { certificates := [certBack]
    operations := storeRev10.operations ++ [opRow (some "issued") none 20] }

/-- A certificate whose identifiers match no lookup used below. -/
def certOther : Certificate :=
  { certificate_id := some "c2", serial_number := some "sn2",
    common_name := "other.internal", ca_provider := "internal-pki",
    status := some "issued", revoked_at := none,
    revocation_reason := none, updated_at := 1 }

/-- Store holding only `certOther`. -/
def storeOther : Store := { certificates := [certOther], operations := [] }

/-- A `certificate_data` dict carrying an explicit `"revoked"` status, as
`store_certificate` accepts from a provider. -/
def dataRevoked : CertificateData :=
  { certificate_id := some "c9", serial_number := none,
    common_name := "odd.internal", status := some "revoked" }

/-! ## Tool-dispatch engine — `src/infrastructure/mcp-server/src/mcp_protocol.py` -/

/-- One value of the `parameters` dict of an `MCPTool`: a JSON-schema
fragment with a `type` and an optional `required` flag.  `call_tool` reads
it with `param_def.get("required", True)`, so an absent flag means
required. -/
structure ParamDef where
  type : String
  required : Option Bool
  deriving DecidableEq, Repr

/-- Outcome of invoking a tool handler: a plain return value (`none` is
Python `None`), an `MCPResult` returned directly, or a raised exception
carrying its message. -/
inductive HandlerOutcome where
  | ret (v : Option JVal)
  | retResult (success : Bool) (data : Option JVal) (error : Option String)
  | raised (msg : String)

/-- `MCPTool` (mcp_protocol.py lines 18–36): name, description, declared
parameter schema (insertion-ordered dict) and bound handler. -/
structure MCPTool where
  name : String
  description : String
  parameters : List (String × ParamDef)
  handler : List (String × JVal) → HandlerOutcome

/-- `MCPResult` (mcp_protocol.py lines 39–44). -/
structure MCPResult where
  success : Bool
  data : Option JVal
  error : Option String
  deriving DecidableEq, Repr

/-- The dict produced by `MCPResult.to_dict`: `success` and `timestamp`
always present; an `Option` field is `none` exactly when `to_dict` omitted
the key (`if self.data is not None`, `if self.error is not None`). -/
structure Envelope where
  success : Bool
  data : Option JVal
  error : Option String
  timestamp : Nat
  deriving DecidableEq, Repr

/-- `MCPResult.to_dict` (mcp_protocol.py lines 46–58). -/
def MCPResult.to_dict (r : MCPResult) (now : Nat) : Envelope :=
  { success := r.success
    data := r.data
    error := r.error
    timestamp := now }

/-- `MCPServer` state: the `tools` dict keyed by tool name. -/
structure MCPServer where
  name : String
  tools : List (String × MCPTool)

/-- Lookup in the `tools` dict (`tool_name not in self.tools` /
`self.tools[tool_name]`). -/
def findTool (srv : MCPServer) (tool_name : String) : Option MCPTool :=
  (srv.tools.find? (fun t => t.1 == tool_name)).map Prod.snd

/-- The `missing_params` list built by `call_tool` (mcp_protocol.py lines
108–111): every declared parameter that is absent from the input and whose
`required` flag defaults to true, in declaration order. -/
def missing_params (tool : MCPTool) (parameters : List (String × JVal)) :
    List String :=
  (tool.parameters.filter (fun pd =>
      (parameters.find? (fun q => q.1 == pd.1)).isNone
        && pd.2.required.getD true)).map Prod.fst

/-- `MCPServer.call_tool` (mcp_protocol.py lines 96–132): unknown tool,
missing-parameter validation, handler invocation, exception wrapping; every
path returns an envelope dict via `MCPResult.to_dict`. -/
def call_tool (srv : MCPServer) (tool_name : String)
    (parameters : List (String × JVal)) (now : Nat) : Envelope :=
  match findTool srv tool_name with
  | none =>
    (MCPResult.mk false none
      (some ("Tool \x27" ++ tool_name ++ "\x27 not found"))).to_dict now
  | some tool =>
    if (missing_params tool parameters).isEmpty then
      match tool.handler parameters with
      | .retResult success data error =>
        (MCPResult.mk success data error).to_dict now
      | .ret v => (MCPResult.mk true v none).to_dict now
      | .raised msg =>
        (MCPResult.mk false none
          (some ("Tool execution failed: " ++ msg))).to_dict now
    else
      (MCPResult.mk false none
        (some ("Missing required parameters: " ++
          String.intercalate ", " (missing_params tool parameters)))).to_dict now

/-- The `inputSchema` object rendered by `MCPTool.to_dict` (mcp_protocol.py
lines 31–35): `required` is `list(self.parameters.keys())` — every declared
parameter name, regardless of its `required` flag. -/
structure InputSchema where
  type : String
  properties : List (String × ParamDef)
  required : List String
  deriving DecidableEq, Repr

/-- The dict rendered by `MCPTool.to_dict` (mcp_protocol.py lines 26–36). -/
structure ToolDict where
  name : String
  description : String
  inputSchema : InputSchema
  deriving DecidableEq, Repr

/-- `MCPTool.to_dict`. -/
def MCPTool.to_dict (t : MCPTool) : ToolDict :=
  { name := t.name
    description := t.description
    inputSchema :=
      { type := "object"
        properties := t.parameters
        required := t.parameters.map Prod.fst } }

/-- `MCPServer.list_tools` (mcp_protocol.py lines 90–94). -/
def list_tools (srv : MCPServer) : List ToolDict :=
  srv.tools.map (fun t => t.2.to_dict)

/-! ### Dispatch fixtures -/

/-- A tool whose handler returns Python `None`. -/
def noopTool : MCPTool :=
  { name := "noop"
    description := "returns None"
    parameters := []
    handler := fun _ => .ret none }

/-- Server registering only `noopTool`. -/
def srvNoop : MCPServer := { name := "pki-mcp", tools := [("noop", noopTool)] }

/-- A tool whose handler returns the string `"pong"`. -/
def echoTool : MCPTool :=
  { name := "echo"
    description := "returns pong"
    parameters := []
    handler := fun _ => .ret (some (.s "pong")) }

/-- Server registering only `echoTool`. -/
def srvEcho : MCPServer := { name := "pki-mcp", tools := [("echo", echoTool)] }

/-- The `issue_certificate` tool as the spec describes its registration:
`common_name` declared required (no explicit flag, so the default applies),
`validity_period` declared with `required: false`. -/
def issueTool : MCPTool :=
  { name := "issue_certificate"
    description := "Issue a new certificate"
    parameters :=
      [("common_name", { type := "string", required := none }),
       ("validity_period", { type := "integer", required := some false })]
    handler := fun _ => .ret (some (.s "issued")) }

/-- Server registering only `issueTool`. -/
def srvIssue : MCPServer :=
  { name := "pki-mcp", tools := [("issue_certificate", issueTool)] }

/-! ## Expiry monitor — `src/vault-pki/automation/monitoring/cert-expiry-monitor.py` -/

/-- `self.warning_days = 30` (cert-expiry-monitor.py line 34). -/
def warning_days : Int := 30

/-- `self.critical_days = 7` (cert-expiry-monitor.py line 35). -/
def critical_days : Int := 7

/-- One entry of the report's `alerts` list. -/
structure MonitorAlert where
  level : String
  message : String
  mount : Option String
  days_until_expiry : Option Int
  deriving DecidableEq, Repr

/-- The report's `statistics` object. -/
structure MonitorStats where
  total_cas : Nat
  healthy_cas : Nat
  warning_cas : Nat
  critical_cas : Nat
  deriving DecidableEq, Repr

/-- The report produced by `generate_report`. -/
structure MonitorReport where
  vault_health : Bool
  ca_certificates : List (String × Int)
  alerts : List MonitorAlert
  statistics : MonitorStats
  deriving DecidableEq, Repr

/-- Body of the per-mount loop of `generate_report` (cert-expiry-monitor.py
lines 141–167).  A mount whose `check_ca_expiry` returned `None` is
skipped; otherwise its `days_until_expiry` is classified:
`days ≤ critical_days` → critical bucket and alert, `elif days ≤
warning_days` → warning bucket and alert, else healthy bucket. -/
def reportStep (r : MonitorReport) (mount : String × Option Int) :
    MonitorReport :=
  match mount.2 with
  | none => r
  | some days =>
    let r := { r with ca_certificates := r.ca_certificates ++ [(mount.1, days)] }
    if days ≤ critical_days then
      { r with
        statistics :=
          { r.statistics with critical_cas := r.statistics.critical_cas + 1 }
        alerts := r.alerts ++
          [{ level := "critical"
             message := "CA " ++ mount.1 ++ " expires in " ++ toString days ++ " days"
             mount := some mount.1
             days_until_expiry := some days }] }
    else if days ≤ warning_days then
      { r with
        statistics :=
          { r.statistics with warning_cas := r.statistics.warning_cas + 1 }
        alerts := r.alerts ++
          [{ level := "warning"
             message := "CA " ++ mount.1 ++ " expires in " ++ toString days ++ " days"
             mount := some mount.1
             days_until_expiry := some days }] }
    else
      { r with
        statistics :=
          { r.statistics with healthy_cas := r.statistics.healthy_cas + 1 } }

/-- `CertificateMonitor.generate_report` (cert-expiry-monitor.py lines
115–169).  Inputs: whether the Vault health check succeeded, and the list
of PKI mounts paired with the `days_until_expiry` from `check_ca_expiry`
(`none` when that call failed and returned `None`). -/
def generate_report (vault_health : Bool)
    (mounts : List (String × Option Int)) : MonitorReport :=
  let base : MonitorReport :=
    { vault_health := vault_health
      ca_certificates := []
      alerts := []
      statistics :=
        { total_cas := 0, healthy_cas := 0, warning_cas := 0, critical_cas := 0 } }
  if !vault_health then
    { base with alerts :=
        [{ level := "critical"
           message := "Vault is not accessible"
           mount := none
           days_until_expiry := none }] }
  else
    mounts.foldl reportStep
      { base with statistics := { base.statistics with total_cas := mounts.length } }

/-! ## Cache layer — `src/infrastructure/mcp-server/src/cache.py` -/

/-- `RedisCache._make_key` (cache.py lines 56–58): prepend the key prefix.
`kpfx` models `self.key_prefix`. -/
def make_key (kpfx key : String) : String := kpfx ++ ":" ++ key

/-- `RedisCache.get` (cache.py lines 60–77).  The Redis backend is the
function `redis` (`await self.redis.get`), which may raise (`Except.error`,
an outage) or return the stored string, and `jsonLoads` models
`json.loads`, `none` meaning `JSONDecodeError`.  The Python return value is
`none` for a miss or any backend exception, `Sum.inl` for a decoded JSON
value and `Sum.inr` for the raw string when decoding fails. -/
def cache_get (redis : String → Except String (Option String))
    (jsonLoads : String → Option JVal) (kpfx key : String) :
    Option (JVal ⊕ String) :=
  match redis (make_key kpfx key) with
  | .error _ => none
  | .ok none => none
  | .ok (some value) =>
    match jsonLoads value with
    | some j => some (.inl j)
    | none => some (.inr value)

/-! ## Helper lemmas -/

/-- A map by a function that fixes every element of a list is the
identity on that list. -/
theorem map_fixed_eq_self {α : Type} {l : List α} {f : α → α}
    (h : ∀ a ∈ l, f a = a) : l.map f = l := by
  induction l with
  | nil => rfl
  | cons x xs ih =>
    rw [List.map_cons, h x (List.mem_cons_self x xs),
      ih fun a ha => h a (List.mem_cons_of_mem x ha)]

/-- The certificates table after a successful or unsuccessful (but not
erroring) `update_certificate_status` call is the row-wise image of
`applyStatusUpdate`. -/
theorem update_certificates_eq (s : Store)
    (cid sn st r : Option String) (now : Nat)
    (p : Certificate → Bool) (hp : lookupPred cid sn = some p)
    (b : Bool) (s' : Store)
    (h : update_certificate_status s cid sn st r now = .ok (b, s')) :
    s'.certificates = s.certificates.map (applyStatusUpdate p st r now) := by
  rcases hfind : s.certificates.find? p with _ | c0 <;>
    simp only [update_certificate_status, hp, hfind, Except.ok.injEq,
      Prod.mk.injEq] at h <;>
    rw [← h.2]

/-- The status of an updated row that the lookup predicate matches is the
requested status, whatever the requested status is. -/
theorem applyStatusUpdate_status (p : Certificate → Bool)
    (st r : Option String) (now : Nat) (a : Certificate)
    (hpa : p a = true) : (applyStatusUpdate p st r now a).status = st := by
  by_cases hrev : st = some "revoked" <;>
    cases hr : pyTruthy r <;>
    simp [applyStatusUpdate, hpa, hrev, hr]

/-- A row the lookup predicate does not match is unchanged. -/
theorem applyStatusUpdate_no_match (p : Certificate → Bool)
    (st r : Option String) (now : Nat) (a : Certificate)
    (hpa : p a = false) : applyStatusUpdate p st r now a = a := by
  simp [applyStatusUpdate, hpa]

/-- The lookup predicates returned by `lookupPred` only read the two
identifier columns, which `applyStatusUpdate` never writes, so matching is
stable under the update. -/
theorem lookupPred_applyStatusUpdate (cid sn : Option String)
    (p : Certificate → Bool) (hp : lookupPred cid sn = some p)
    (q : Certificate → Bool) (st r : Option String) (now : Nat)
    (a : Certificate) : p (applyStatusUpdate q st r now a) = p a := by
  have hshape : (∀ c, p c = (c.certificate_id == cid)) ∨
      (∀ c, p c = (c.serial_number == sn)) := by
    unfold lookupPred at hp
    by_cases h1 : pyTruthy cid = true
    · left
      simp only [h1, if_true, Option.some.injEq] at hp
      intro c
      rw [← hp]
    · right
      by_cases h2 : pyTruthy sn = true
      · simp only [Bool.not_eq_true] at h1
        simp only [h1, Bool.false_eq_true, if_false, h2, if_true,
          Option.some.injEq] at hp
        intro c
        rw [← hp]
      · simp only [Bool.not_eq_true] at h1 h2
        simp [h1, h2] at hp
  unfold applyStatusUpdate
  rcases hshape with hs | hs <;>
    by_cases hqa : q a = true <;>
    by_cases hrev : st = some "revoked" <;>
    cases hr : pyTruthy r <;>
    simp [hqa, hrev, hr, hs]

/-! ## Claims about the certificate store -/

/-- Claim C1, counterexample: a certificate whose stored status is
`revoked` (terminal) is updated to `pending`, a transition the spec's
state machine forbids, yet `update_certificate_status` reports success and
the stored status changes to `pending`. -/
theorem update_status_transition_cex :
    specLegalSuccessor "revoked" "pending" = false ∧
    storeRevoked.certificates.map Certificate.status = [some "revoked"] ∧
    (update_certificate_status storeRevoked (some "c1") none
        (some "pending") none 5).toOption.map
        (fun res => (res.1, res.2.certificates.map Certificate.status)) =
      some (true, [some "pending"]) :=
  ⟨rfl, rfl, rfl⟩

/-- Claim C1 (amended): `update_certificate_status` performs no
state-machine validation at all.  Whenever the call returns (with either
lookup key), every stored certificate the lookup matches has its status
set to exactly the requested status — legal successor or not. -/
theorem update_status_sets_requested (s : Store)
    (cid sn st r : Option String) (now : Nat)
    (p : Certificate → Bool) (hp : lookupPred cid sn = some p)
    (b : Bool) (s' : Store)
    (h : update_certificate_status s cid sn st r now = .ok (b, s'))
    (c : Certificate) (hc : c ∈ s'.certificates) (hpc : p c = true) :
    c.status = st := by
  rw [update_certificates_eq s cid sn st r now p hp b s' h] at hc
  obtain ⟨a, ha, rfl⟩ := List.mem_map.1 hc
  cases hpa : p a with
  | false => rw [applyStatusUpdate_no_match p st r now a hpa] at hpc ⊢
             exact absurd hpc (by simp [hpa])
  | true => exact applyStatusUpdate_status p st r now a hpa

/-- Claim C1, witness for the amended theorem: updating the issued
certificate `c1` to `active` at time 9 yields a row whose status is
`active`. -/
theorem update_status_sets_requested_wit :
    ({ certIssued with status := some "active", updated_at := 9 } :
      Certificate).status = some "active" :=
  update_status_sets_requested storeIssued (some "c1") none
    (some "active") none 9
    (fun c => c.certificate_id == some "c1") rfl true
    { certificates := [{ certIssued with status := some "active", updated_at := 9 }]
      operations := [opRow (some "active") none 9] } rfl
    { certIssued with status := some "active", updated_at := 9 }
    (List.mem_singleton.mpr rfl) rfl

/-- Claim C2, counterexample: supplying BOTH `certificate_id` and
`serial_number` is not rejected.  The call silently uses `certificate_id`
(the supplied serial does not even match the row), returns success, writes
the certificate row and appends an operations-log row. -/
theorem update_status_both_keys_cex :
    (update_certificate_status storeIssued (some "c1") (some "no-such-serial")
        (some "active") none 7).toOption.map
        (fun res => (res.1, res.2.certificates.map Certificate.status,
          res.2.operations.length)) =
      some (true, [some "active"], 1) :=
  rfl

/-- Claim C2 (amended): supplying neither key raises the `ValueError`
(`Except.error`, hence no write), as the claim states; but supplying both
keys is accepted, `certificate_id` taking precedence — the call behaves
exactly as if `serial_number` had not been supplied. -/
theorem update_status_key_selection (s : Store)
    (cid sn st r : Option String) (now : Nat) :
    (pyTruthy cid = false → pyTruthy sn = false →
      update_certificate_status s cid sn st r now =
        .error "Either certificate_id or serial_number must be provided") ∧
    (pyTruthy cid = true →
      update_certificate_status s cid sn st r now =
        update_certificate_status s cid none st r now) := by
  constructor
  · intro h1 h2
    simp [update_certificate_status, lookupPred, h1, h2]
  · intro h1
    simp [update_certificate_status, lookupPred, h1]

/-- Claim C2, witness for the amended theorem: a call with neither key
errors; a call on `storeIssued` with both keys equals the call with only
`certificate_id`. -/
theorem update_status_key_selection_wit :
    update_certificate_status { certificates := [], operations := [] }
        none none (some "active") none 0 =
      .error "Either certificate_id or serial_number must be provided" ∧
    update_certificate_status storeIssued (some "c1") (some "sn1")
        (some "active") none 7 =
      update_certificate_status storeIssued (some "c1") none
        (some "active") none 7 :=
  ⟨(update_status_key_selection { certificates := [], operations := [] }
      none none (some "active") none 0).1 rfl rfl,
   (update_status_key_selection storeIssued (some "c1") (some "sn1")
      (some "active") none 7).2 rfl⟩

/-- Claim C3, counterexample: revoking `c1` at time 10 sets
`revoked_at = 10`; revoking it again at time 20 returns success but
OVERWRITES `revoked_at` with 20 and appends a second `status_update`
operations-log row — a duplicate status change with a different
`revoked_at`, exactly what the claim rules out. -/
theorem revoke_twice_overwrites_cex :
    update_certificate_status storeIssued (some "c1") none (some "revoked")
        (some "key-compromise") 10 = .ok (true, storeRev10) ∧
    update_certificate_status storeRev10 (some "c1") none (some "revoked")
        (some "key-compromise") 20 = .ok (true, storeRev20) ∧
    storeRev10.certificates.map Certificate.revoked_at = [some 10] ∧
    storeRev20.certificates.map Certificate.revoked_at = [some 20] ∧
    storeRev10.operations.length = 1 ∧
    storeRev20.operations.length = 2 :=
  ⟨rfl, rfl, rfl, rfl, rfl, rfl⟩

/-- Claim C3 (amended): revoking an already-revoked certificate does
return success (the update matches the row again), but it sets
`revoked_at` to the time of the SECOND call and appends one more
operations-log row; the first revocation's `revoked_at` survives only if
the two calls carry the same timestamp. -/
theorem revoke_again_succeeds_overwrites (s : Store)
    (cid sn r : Option String) (now : Nat)
    (p : Certificate → Bool) (hp : lookupPred cid sn = some p)
    (b : Bool) (s' : Store)
    (h : update_certificate_status s cid sn (some "revoked") r now =
      .ok (b, s'))
    (c0 : Certificate) (hc0 : c0 ∈ s.certificates) (hpc0 : p c0 = true)
    (_hrev : c0.status = some "revoked") :
    b = true ∧ s'.operations.length = s.operations.length + 1 ∧
      ∀ c ∈ s'.certificates, p c = true → c.revoked_at = some now := by
  rcases hfind : s.certificates.find? p with _ | cf
  · exact absurd ((List.find?_eq_none.1 hfind) c0 hc0) (by simp [hpc0])
  · simp only [update_certificate_status, hp, hfind, Except.ok.injEq,
      Prod.mk.injEq] at h
    refine ⟨h.1.symm, ?_, ?_⟩
    · rw [← h.2]
      simp
    · intro c hc hpc
      rw [← h.2] at hc
      obtain ⟨a, ha, rfl⟩ := List.mem_map.1 hc
      cases hpa : p a with
      | false => rw [applyStatusUpdate_no_match p (some "revoked") r now a hpa]
                   at hpc ⊢
                 exact absurd hpc (by simp [hpa])
      | true => cases hr : pyTruthy r <;>
                  simp [applyStatusUpdate, hpa, hr]

/-- Claim C3, witness for the amended theorem: the second revocation of
`c1` (already revoked at 10) at time 20 succeeds, grows the log from one
row to two, and stamps `revoked_at = 20`. -/
theorem revoke_again_succeeds_overwrites_wit :
    (true = true) ∧
    storeRev20.operations.length = storeRev10.operations.length + 1 ∧
    certRev20.revoked_at = some 20 := by
  have H := revoke_again_succeeds_overwrites storeRev10 (some "c1") none
    (some "key-compromise") 20
    (fun c => c.certificate_id == some "c1") rfl true storeRev20 rfl
    certRev10 (List.mem_singleton.mpr rfl) rfl rfl
  exact ⟨H.1, H.2.1, H.2.2 certRev20 (List.mem_singleton.mpr rfl) rfl⟩

/-- Claim C4, counterexample: the biconditional `status = revoked ↔
revoked_at set` fails in both directions on reachable stores.  After
revoking `c1` at 10 and then updating it to `issued` at 20 (the code
accepts it), the row has `status = issued` with `revoked_at = 10` still
set; and `store_certificate` with provider data carrying
`status = "revoked"` inserts a row with `status = revoked` and
`revoked_at` NULL. -/
theorem revoked_at_iff_cex :
    update_certificate_status storeRev10 (some "c1") none (some "issued")
        none 20 = .ok (true, storeRevBack) ∧
    storeRevBack.certificates.map Certificate.status = [some "issued"] ∧
    storeRevBack.certificates.map Certificate.revoked_at = [some 10] ∧
    (store_certificate { certificates := [], operations := [] }
        "internal-pki" dataRevoked 1).toOption.map
        (fun res => res.2.certificates.map
          (fun c => (c.status, c.revoked_at))) =
      some [(some "revoked", none)] :=
  ⟨rfl, rfl, rfl, rfl⟩

/-- Claim C4 (amended): only the forward, instantaneous half survives: a
returning `update_certificate_status` call with requested status
`"revoked"` leaves every matched certificate with `status = revoked` AND
`revoked_at` set (to the call's timestamp).  The biconditional over
arbitrary operation sequences does not hold: later updates never clear
`revoked_at`, and `store_certificate` never sets it. -/
theorem revoke_update_sets_revoked_at (s : Store)
    (cid sn r : Option String) (now : Nat)
    (p : Certificate → Bool) (hp : lookupPred cid sn = some p)
    (b : Bool) (s' : Store)
    (h : update_certificate_status s cid sn (some "revoked") r now =
      .ok (b, s'))
    (c : Certificate) (hc : c ∈ s'.certificates) (hpc : p c = true) :
    c.status = some "revoked" ∧ c.revoked_at = some now := by
  rw [update_certificates_eq s cid sn (some "revoked") r now p hp b s' h] at hc
  obtain ⟨a, ha, rfl⟩ := List.mem_map.1 hc
  cases hpa : p a with
  | false => rw [applyStatusUpdate_no_match p (some "revoked") r now a hpa]
               at hpc ⊢
             exact absurd hpc (by simp [hpa])
  | true => cases hr : pyTruthy r <;>
              simp [applyStatusUpdate, hpa, hr]

/-- Claim C4, witness for the amended theorem: the revocation of `c1` at
time 10 leaves the row revoked with `revoked_at = 10`. -/
theorem revoke_update_sets_revoked_at_wit :
    certRev10.status = some "revoked" ∧ certRev10.revoked_at = some 10 :=
  revoke_update_sets_revoked_at storeIssued (some "c1") none
    (some "key-compromise") 10
    (fun c => c.certificate_id == some "c1") rfl true storeRev10 rfl
    certRev10 (List.mem_singleton.mpr rfl) rfl

/-- Claim C9: when the lookup key matches no stored certificate, the
`UPDATE ... RETURNING` yields no row, so the call returns `False`, leaves
every certificate row untouched and appends nothing to the operations log
— a silent no-op, not a `NotFound` error. -/
theorem update_status_no_match_noop (s : Store)
    (cid sn st r : Option String) (now : Nat)
    (p : Certificate → Bool) (hp : lookupPred cid sn = some p)
    (hfind : s.certificates.find? p = none) :
    update_certificate_status s cid sn st r now = .ok (false, s) := by
  simp only [update_certificate_status, hp, hfind]
  have hmap : s.certificates.map (applyStatusUpdate p st r now) =
      s.certificates :=
    map_fixed_eq_self fun a ha =>
      applyStatusUpdate_no_match p st r now a
        (by simpa using (List.find?_eq_none.1 hfind) a ha)
  rw [hmap]

/-- Claim C9, witness: updating by the absent id `c1` on a store that only
holds `c2` returns `False` with the store unchanged. -/
theorem update_status_no_match_noop_wit :
    update_certificate_status storeOther (some "c1") none (some "revoked")
        none 4 = .ok (false, storeOther) :=
  update_status_no_match_noop storeOther (some "c1") none (some "revoked")
    none 4 (fun c => c.certificate_id == some "c1") rfl rfl

/-! ## Claims about the tool-dispatch engine -/

/-- Claim C5, counterexample: `MCPResult.to_dict` omits the `data` key
when `self.data is None`, and a handler returning Python `None` is wrapped
as `MCPResult(success=True, data=None)`.  The resulting success envelope is
`\x7bsuccess: true, timestamp\x7d` with NO `data` key — not the
`\x7bsuccess: true, data: <value>, timestamp\x7d` shape the claim asserts
for every handler return value, and its shape differs from that of any
handler returning a non-`None` value. -/
theorem success_envelope_data_key_cex :
    call_tool srvNoop "noop" [] 0 =
      { success := true, data := none, error := none, timestamp := 0 } :=
  rfl

/-- Claim C5 (amended): every dispatch path returns a uniform envelope and
never re-raises: an unknown tool, a missing-parameter failure and a
handler exception each yield `\x7bsuccess: false, error: <message>,
timestamp\x7d` with no `data` key; a handler return value `v` yields
`\x7bsuccess: true, data: v, timestamp\x7d` — except that the `data` key
is omitted when `v` is `None`; a handler returning an `MCPResult` is
serialized as-is. -/
theorem call_tool_envelope_shape (srv : MCPServer) (tool_name : String)
    (parameters : List (String × JVal)) (now : Nat) :
    (findTool srv tool_name = none →
      call_tool srv tool_name parameters now =
        { success := false, data := none,
          error := some ("Tool \x27" ++ tool_name ++ "\x27 not found"),
          timestamp := now }) ∧
    (∀ tool v, findTool srv tool_name = some tool →
      missing_params tool parameters = [] →
      tool.handler parameters = .ret v →
      call_tool srv tool_name parameters now =
        { success := true, data := v, error := none, timestamp := now }) ∧
    (∀ tool success data error, findTool srv tool_name = some tool →
      missing_params tool parameters = [] →
      tool.handler parameters = .retResult success data error →
      call_tool srv tool_name parameters now =
        { success := success, data := data, error := error,
          timestamp := now }) ∧
    (∀ tool msg, findTool srv tool_name = some tool →
      missing_params tool parameters = [] →
      tool.handler parameters = .raised msg →
      call_tool srv tool_name parameters now =
        { success := false, data := none,
          error := some ("Tool execution failed: " ++ msg),
          timestamp := now }) ∧
    (∀ tool, findTool srv tool_name = some tool →
      missing_params tool parameters ≠ [] →
      call_tool srv tool_name parameters now =
        { success := false, data := none,
          error := some ("Missing required parameters: " ++
            String.intercalate ", " (missing_params tool parameters)),
          timestamp := now }) := by
  refine ⟨?_, ?_, ?_, ?_, ?_⟩
  · intro h
    simp [call_tool, MCPResult.to_dict, h]
  · intro tool v ht hm hh
    simp [call_tool, MCPResult.to_dict, ht, hm, hh]
  · intro tool success data error ht hm hh
    simp [call_tool, MCPResult.to_dict, ht, hm, hh]
  · intro tool msg ht hm hh
    simp [call_tool, MCPResult.to_dict, ht, hm, hh]
  · intro tool ht hm
    obtain ⟨x, xs, hxs⟩ := List.exists_cons_of_ne_nil hm
    have hie : (missing_params tool parameters).isEmpty = false := by
      rw [hxs]
      rfl
    simp [call_tool, MCPResult.to_dict, ht, hie]

/-- Claim C5, witness for the amended theorem: an unknown tool name yields
the not-found failure envelope, and the `echo` handler's return value is
wrapped with the `data` key present. -/
theorem call_tool_envelope_shape_wit :
    call_tool srvEcho "missing" [] 1 =
      { success := false, data := none,
        error := some ("Tool \x27" ++ "missing" ++ "\x27 not found"),
        timestamp := 1 } ∧
    call_tool srvEcho "echo" [] 2 =
      { success := true, data := some (.s "pong"), error := none,
        timestamp := 2 } :=
  ⟨(call_tool_envelope_shape srvEcho "missing" [] 1).1 rfl,
   (call_tool_envelope_shape srvEcho "echo" [] 2).2.1 echoTool
     (some (.s "pong")) rfl rfl rfl⟩

/-- Claim C6: when any declared-required parameter is absent, `call_tool`
returns a validation-failure envelope whose message is built from the FULL
`missing_params` list (every absent parameter whose `required` flag
defaults to true is in that list, in declaration order), and the result is
independent of the bound handler — any tool with the same declared
parameters produces the identical envelope, so the handler is never
invoked. -/
theorem call_tool_missing_required (srv : MCPServer) (tool_name : String)
    (tool : MCPTool) (parameters : List (String × JVal)) (now : Nat)
    (ht : findTool srv tool_name = some tool)
    (hm : missing_params tool parameters ≠ []) :
    call_tool srv tool_name parameters now =
      { success := false, data := none,
        error := some ("Missing required parameters: " ++
          String.intercalate ", " (missing_params tool parameters)),
        timestamp := now } ∧
    (∀ pd ∈ tool.parameters,
      parameters.find? (fun q => q.1 == pd.1) = none →
      pd.2.required.getD true = true →
      pd.1 ∈ missing_params tool parameters) ∧
    (∀ (srv2 : MCPServer) (tool2 : MCPTool),
      findTool srv2 tool_name = some tool2 →
      tool2.parameters = tool.parameters →
      call_tool srv2 tool_name parameters now =
        call_tool srv tool_name parameters now) := by
  refine ⟨?_, ?_, ?_⟩
  · obtain ⟨x, xs, hxs⟩ := List.exists_cons_of_ne_nil hm
    have hie : (missing_params tool parameters).isEmpty = false := by
      rw [hxs]
      rfl
    simp [call_tool, MCPResult.to_dict, ht, hie]
  · intro pd hmem habs hreq
    exact List.mem_map.2
      ⟨pd, List.mem_filter.2 ⟨hmem, by simp [habs, hreq]⟩, rfl⟩
  · intro srv2 tool2 ht2 hpar
    have hmp : missing_params tool2 parameters =
        missing_params tool parameters := by
      unfold missing_params
      rw [hpar]
    obtain ⟨x, xs, hxs⟩ := List.exists_cons_of_ne_nil hm
    have hie : (missing_params tool parameters).isEmpty = false := by
      rw [hxs]
      rfl
    simp [call_tool, ht, ht2, hmp, hie]

/-- Claim C6, witness: `call("issue_certificate", \x7b\x7d)` with
`common_name` declared required and absent fails with a validation
envelope, and `common_name` is named in the missing list. -/
theorem call_tool_missing_required_wit :
    call_tool srvIssue "issue_certificate" [] 0 =
      { success := false, data := none,
        error := some ("Missing required parameters: " ++
          String.intercalate ", " (missing_params issueTool [])),
        timestamp := 0 } ∧
    "common_name" ∈ missing_params issueTool [] :=
  ⟨(call_tool_missing_required srvIssue "issue_certificate" issueTool [] 0
      rfl (by decide)).1,
   (call_tool_missing_required srvIssue "issue_certificate" issueTool [] 0
      rfl (by decide)).2.1
     ("common_name", { type := "string", required := none })
     (by decide) rfl rfl⟩

/-- Claim C10: `MCPTool.to_dict` advertises EVERY declared parameter name
in the schema's `required` array (`list(self.parameters.keys())`), while
`call_tool` enforces exactly the parameters whose `required` flag is
absent or true (`missing_params` against an empty input is precisely the
enforced set).  Hence the advertised set always contains the enforced set,
and for a tool declaring a parameter with `required: false` (and distinct
parameter names) the containment is strict. -/
theorem advertised_required_superset (tool : MCPTool) :
    tool.to_dict.inputSchema.required = tool.parameters.map Prod.fst ∧
    (∀ n, n ∈ missing_params tool [] →
      n ∈ tool.to_dict.inputSchema.required) ∧
    ((tool.parameters.map Prod.fst).Nodup →
      ∀ pd ∈ tool.parameters,
        (pd.1 ∈ missing_params tool [] ↔ pd.2.required.getD true = true)) ∧
    ((tool.parameters.map Prod.fst).Nodup →
      ∀ pd ∈ tool.parameters, pd.2.required = some false →
        pd.1 ∈ tool.to_dict.inputSchema.required ∧
          pd.1 ∉ missing_params tool []) := by
  have hforward : ∀ pd ∈ tool.parameters, pd.2.required.getD true = true →
      pd.1 ∈ missing_params tool [] := by
    intro pd hmem hreq
    exact List.mem_map.2
      ⟨pd, List.mem_filter.2 ⟨hmem, by simp [hreq]⟩, rfl⟩
  have hback : (tool.parameters.map Prod.fst).Nodup →
      ∀ pd ∈ tool.parameters, pd.1 ∈ missing_params tool [] →
      pd.2.required.getD true = true := by
    intro hnd pd hmem hin
    obtain ⟨pd2, hpd2, heq⟩ := List.mem_map.1 hin
    obtain ⟨hmem2, hflag⟩ := List.mem_filter.1 hpd2
    have : pd2 = pd := List.inj_on_of_nodup_map hnd hmem2 hmem heq
    subst this
    simpa using hflag
  refine ⟨rfl, ?_, ?_, ?_⟩
  · intro n hn
    obtain ⟨pd, hpd, heq⟩ := List.mem_map.1 hn
    exact heq ▸ List.mem_map.2 ⟨pd, (List.mem_filter.1 hpd).1, rfl⟩
  · intro hnd pd hmem
    exact ⟨hback hnd pd hmem, hforward pd hmem⟩
  · intro hnd pd hmem hflag
    refine ⟨List.mem_map.2 ⟨pd, hmem, rfl⟩, fun hin => ?_⟩
    have := hback hnd pd hmem hin
    rw [hflag] at this
    simp at this

/-- Claim C10, witness: for `issueTool`, `validity_period` is declared
with `required: false`, is advertised in the schema's required array, yet
is not enforced; the enforced set is exactly `[common_name]`. -/
theorem advertised_required_superset_wit :
    ("validity_period" ∈ issueTool.to_dict.inputSchema.required ∧
      "validity_period" ∉ missing_params issueTool []) ∧
    issueTool.to_dict.inputSchema.required =
      ["common_name", "validity_period"] ∧
    missing_params issueTool [] = ["common_name"] :=
  ⟨(advertised_required_superset issueTool).2.2.2 (by decide)
     ("validity_period", { type := "integer", required := some false })
     (by decide) rfl,
   rfl, rfl⟩

/-! ## Claims about the expiry monitor -/

/-- One loop iteration of `generate_report` adds exactly one to the three
severity buckets combined when the mount's CA check succeeded, and nothing
when it returned `None`. -/
theorem reportStep_buckets (r : MonitorReport) (m : String × Option Int) :
    (reportStep r m).statistics.healthy_cas +
      (reportStep r m).statistics.warning_cas +
      (reportStep r m).statistics.critical_cas =
    r.statistics.healthy_cas + r.statistics.warning_cas +
      r.statistics.critical_cas + (if m.2.isSome then 1 else 0) := by
  rcases m with ⟨name, info⟩
  cases info with
  | none => simp [reportStep]
  | some days =>
    simp only [reportStep, Option.isSome_some, if_true]
    split_ifs <;> simp <;> omega

/-- The per-mount loop preserves the bucket count over any accumulator. -/
theorem foldl_reportStep_buckets (l : List (String × Option Int))
    (r : MonitorReport) :
    (l.foldl reportStep r).statistics.healthy_cas +
      (l.foldl reportStep r).statistics.warning_cas +
      (l.foldl reportStep r).statistics.critical_cas =
    r.statistics.healthy_cas + r.statistics.warning_cas +
      r.statistics.critical_cas +
      (l.filter (fun m => m.2.isSome)).length := by
  induction l generalizing r with
  | nil => simp
  | cons x xs ih =>
    rw [List.foldl_cons, ih, reportStep_buckets, List.filter_cons]
    split_ifs <;> simp <;> omega

/-- Claim C7: the monitor classifies `days ≤ 7` as critical, `7 < days ≤
30` as warning and `days > 30` as healthy — so 5 and the boundary 7 are
critical, 8, 15 and the boundary 30 are warning, 31 and 60 are healthy —
and every successfully scanned CA mount is counted in exactly one of the
three statistics buckets. -/
theorem expiry_classification :
    ((generate_report true [("pki", some 5)]).statistics.critical_cas = 1 ∧
     (generate_report true [("pki", some 15)]).statistics.warning_cas = 1 ∧
     (generate_report true [("pki", some 60)]).statistics.healthy_cas = 1 ∧
     (generate_report true [("pki", some 7)]).statistics.critical_cas = 1 ∧
     (generate_report true [("pki", some 8)]).statistics.warning_cas = 1 ∧
     (generate_report true [("pki", some 30)]).statistics.warning_cas = 1 ∧
     (generate_report true [("pki", some 31)]).statistics.healthy_cas = 1) ∧
    (∀ d : Int,
      (generate_report true [("pki", some d)]).statistics.critical_cas =
        (if d ≤ 7 then 1 else 0) ∧
      (generate_report true [("pki", some d)]).statistics.warning_cas =
        (if 7 < d ∧ d ≤ 30 then 1 else 0) ∧
      (generate_report true [("pki", some d)]).statistics.healthy_cas =
        (if 30 < d then 1 else 0)) ∧
    (∀ mounts : List (String × Option Int),
      (generate_report true mounts).statistics.healthy_cas +
        (generate_report true mounts).statistics.warning_cas +
        (generate_report true mounts).statistics.critical_cas =
      (mounts.filter (fun m => m.2.isSome)).length) := by
  refine ⟨by decide, ?_, ?_⟩
  · intro d
    simp only [generate_report, Bool.not_true, Bool.false_eq_true, if_false,
      List.foldl_cons, List.foldl_nil, reportStep, critical_days,
      warning_days]
    refine ⟨?_, ?_, ?_⟩ <;> split_ifs <;> try simp
    all_goals omega
  · intro mounts
    simp only [generate_report, Bool.not_true, Bool.false_eq_true, if_false]
    rw [foldl_reportStep_buckets]
    simp

/-! ## Claims about the cache layer -/

/-- Claim C8: `RedisCache.get` fails soft.  A raising backend (cache
outage) yields `None` — indistinguishable from the miss result `None` —
and a stored value that `json.loads` cannot decode is returned as the
opaque raw string; a decodable value is returned decoded.  No input makes
`cache_get` propagate an error. -/
theorem cache_get_fails_soft
    (redis : String → Except String (Option String))
    (jsonLoads : String → Option JVal) (kpfx key : String) :
    (∀ e, redis (make_key kpfx key) = .error e →
      cache_get redis jsonLoads kpfx key = none) ∧
    (redis (make_key kpfx key) = .ok none →
      cache_get redis jsonLoads kpfx key = none) ∧
    (∀ v, redis (make_key kpfx key) = .ok (some v) → jsonLoads v = none →
      cache_get redis jsonLoads kpfx key = some (.inr v)) ∧
    (∀ v j, redis (make_key kpfx key) = .ok (some v) → jsonLoads v = some j →
      cache_get redis jsonLoads kpfx key = some (.inl j)) := by
  refine ⟨?_, ?_, ?_, ?_⟩
  · intro e h
    simp [cache_get, h]
  · intro h
    simp [cache_get, h]
  · intro v h hj
    simp [cache_get, h, hj]
  · intro v j h hj
    simp [cache_get, h, hj]

/-- Claim C8, witness: with the backend down, `get` returns `None` —
identical to a miss on a healthy backend — and a stored non-JSON value is
returned as the opaque string. -/
theorem cache_get_fails_soft_wit :
    cache_get (fun _ => .error "Connection refused") (fun _ => none)
      "pki_mcp" "cert:sn1" = none ∧
    cache_get (fun _ => .ok none) (fun _ => none)
      "pki_mcp" "cert:sn1" = none ∧
    cache_get (fun _ => .ok (some "legacy-raw")) (fun _ => none)
      "pki_mcp" "cert:sn1" = some (.inr "legacy-raw") :=
  ⟨(cache_get_fails_soft (fun _ => .error "Connection refused")
      (fun _ => none) "pki_mcp" "cert:sn1").1 "Connection refused" rfl,
   (cache_get_fails_soft (fun _ => .ok none)
      (fun _ => none) "pki_mcp" "cert:sn1").2.1 rfl,
   (cache_get_fails_soft (fun _ => .ok (some "legacy-raw"))
      (fun _ => none) "pki_mcp" "cert:sn1").2.2.1 "legacy-raw" rfl rfl⟩

end PKI
